import Mathlib

/-!
# Verification of the pog-blog server handlers

A shallow embedding of the pog-blog server (Express + Mongoose) request
handlers in Lean 4, together with theorems checking the natural-language
specification against that embedding.

The document store is modelled as lists of schema-typed records; each
handler becomes a pure function from a request and a store to a response
and a new store.  External collaborators (the hash function, id
generation, clocks, random codes) are passed in as explicit parameters,
matching the spec's treatment of them as black boxes.
-/

namespace PogBlog

/-! ## Data model (from src/server/models) -/

/-- `UserModel` schema (src/server/models/UserModel.ts, lines 3-35).
Fields exactly as declared in the schema: `_id`, `email`, `password`,
`username`, `profilePicture`, `biography`.  Note that the schema declares
no `verified` field. -/
structure User where
  _id : String
  email : String
  password : String
  username : String
  profilePicture : String
  biography : String
  deriving Repr, DecidableEq

/-- `ValidationCodeModel` schema: email, numeric code, expiration
timestamp (modelled as a `Nat` epoch instant). -/
structure ValidationCode where
  email : String
  code : Nat
  expiration : Nat
  deriving Repr, DecidableEq

/-- `BlogModel` schema: title, content, description, image, publication
timestamp, author reference (user id), likes (array of user ids) and
comments (array of comment ids). -/
structure Blog where
  _id : String
  title : String
  content : String
  description : String
  image : String
  datePublished : Nat
  author : String
  likes : List String
  comments : List String
  deriving Repr, DecidableEq

/-- `CommentModel` schema: content, author reference, blog reference,
posted timestamp. -/
structure BlogComment where
  _id : String
  content : String
  author : String
  blog : String
  datePosted : Nat
  deriving Repr, DecidableEq

/-- The document store: one collection per model. -/
structure Store where
  users : List User
  blogs : List Blog
  comments : List BlogComment
  codes : List ValidationCode
  deriving Repr, DecidableEq

/-- A plain HTTP response `{ message }` with a status code. -/
structure HttpResponse where
  status : Nat
  message : String
  deriving Repr, DecidableEq

/-! ## Generic store operations -/

/-- `deleteOne`: remove the first document matching the predicate
(Mongoose `deleteOne` removes at most one document). -/
def deleteFirst {α : Type} (p : α → Bool) : List α → List α
  | [] => []
  | x :: xs => if p x then xs else x :: deleteFirst p xs

/-- `findOneAndUpdate(filter, update, {new:true})`: update the first
document matching `p` by `f`, returning the updated document (if any)
and the new collection. -/
def findOneAndUpdate {α : Type} (p : α → Bool) (f : α → α) :
    List α → Option α × List α
  | [] => (none, [])
  | x :: xs =>
    if p x then (some (f x), f x :: xs)
    else
      let r := findOneAndUpdate p f xs
      (r.1, x :: r.2)

/-- `$addToSet`: append an element only if it is not already present. -/
def addToSet (l : List String) (x : String) : List String :=
  if l.contains x then l else l ++ [x]

/-- `findOne({email})` on the users collection. -/
def findUserByEmail (users : List User) (email : String) : Option User :=
  users.find? (fun u => u.email == email)

/-! ## Signup handler (src/server/routes/userRoutes.ts, lines 16-78) -/

/-- `MIN_PASSWORD_LENGTH` from userRoutes.ts. -/
def MIN_PASSWORD_LENGTH : Nat := 6

/-- Reading `user.verified` on a document hydrated from the `UserModel`
schema: the schema declares no `verified` path, so the read yields
`undefined`, which is falsy.  The handler's `!exists.verified` test
therefore always sees a falsy value. -/
def userVerified (_ : User) : Bool := false

/-- A Mongoose user document after the verify-email handler assigns the
non-schema path `verified`: the in-memory object carries the extra
property, but `save()` under the default strict mode persists only the
schema paths, i.e. the underlying `User`. -/
structure UserDoc extends User where
  verified : Bool
  deriving Repr, DecidableEq

/-- `save()` on a user document persists only the schema paths
(default Mongoose strict mode): the non-schema `verified` assignment is
dropped. -/
def persistUserDoc (d : UserDoc) : User := d.toUser

/-- Signup request body (`{ email = "", password = "", username = "" }`). -/
structure SignupRequest where
  email : String
  password : String
  username : String
  deriving Repr, DecidableEq

/-- `POST /users/signup`.  Parameters beyond the store and request model
the handler's external collaborators: `isValidEmail` (src/server/lib/
isValidEmail.js, outside the excerpt), the Argon2id hash of the password,
`generateId(15)`, the random validation code, and the current time.
Control flow follows the source exactly: duplicate-email lookup first;
if a user with that email exists and is not verified, `deleteOne` then
400 "Register again"; if it exists (verified), 400 "already exists";
only then email-format and password-length validation; finally the user
and validation code are created and the verification email sent. -/
def signup (isValidEmail : String → Bool) (s : Store) (req : SignupRequest)
    (hashedPassword newUserId : String) (code : Nat) (now : Nat) :
    HttpResponse × Store :=
  match findUserByEmail s.users req.email with
  | some existing =>
    if !userVerified existing then
      ({ status := 400,
         message := "Email already exists and not verified. Register again." },
       { s with users := deleteFirst (fun u => u.email == req.email) s.users })
    else
      ({ status := 400, message := "Email already exists." }, s)
  | none =>
    if req.email = "" || !isValidEmail req.email then
      ({ status := 400, message := "Invalid email" }, s)
    else if req.password = "" || req.password.length < MIN_PASSWORD_LENGTH then
      ({ status := 400, message := "Invalid password" }, s)
    else
      let newUser : User :=
        { _id := newUserId, email := req.email, password := hashedPassword,
          username := req.username,
          profilePicture := "https://picsum.photos/200/300",
          biography := "This user has no biography" }
      let newCode : ValidationCode :=
        { email := req.email, code := code, expiration := now + 3600000 }
      ({ status := 200, message := "Email sent successfully." },
       { s with users := s.users ++ [newUser], codes := s.codes ++ [newCode] })

/-! ## Verify-email handler (userRoutes.ts, lines 151-184) -/

/-- `POST /users/verify-email`.  Looks up a validation code matching
email, code and unexpired (`expiration > now`); on a match, loads the
user, assigns the non-schema `verified` path and saves (persisting only
schema paths), deletes the code, and returns 200. -/
def verifyEmail (s : Store) (email : String) (otp : Nat) (now : Nat) :
    HttpResponse × Store :=
  match s.codes.find?
      (fun c => c.email == email && c.code == otp && now < c.expiration) with
  | none =>
    ({ status := 400, message := "Invalid or expired validation code." }, s)
  | some _ =>
    let usersAfterSave : List User :=
      match findUserByEmail s.users email with
      | none => s.users
      | some u =>
        (findOneAndUpdate (fun v => v.email == email)
          (fun _ => persistUserDoc { u with verified := true }) s.users).2
    let codesAfter :=
      deleteFirst (fun c => c.email == email && c.code == otp) s.codes
    ({ status := 200, message := "Email verified successfully." },
     { s with users := usersAfterSave, codes := codesAfter })

/-! ## Page-number parsing

The listing handlers read `parseInt(req.query.page as string)` and reject
with 400 when the result `isNaN` or is `< 1`.  JavaScript `parseInt`
(radix 10) skips leading whitespace, accepts an optional sign, and reads
the longest run of leading decimal digits; it returns NaN when that run
is empty.  An absent query parameter is `undefined`, for which `parseInt`
also returns NaN.  `none` models NaN. -/

/-- Longest run of leading decimal digits as a number; `none` if empty. -/
def leadingDigits (cs : List Char) : Option Nat :=
  let ds := cs.takeWhile Char.isDigit
  if ds.isEmpty then none
  else some (ds.foldl (fun acc ch => acc * 10 + (ch.toNat - '0'.toNat)) 0)

/-- JavaScript `parseInt(s)` with the default radix-10 behaviour on a
possibly-absent string (`none` = the query parameter is `undefined`). -/
def jsParseInt : Option String → Option Int
  | none => none
  | some str =>
    let cs := str.data.dropWhile fun c => c.isWhitespace
    match cs with
    | '-' :: rest => (leadingDigits rest).map fun n => -(n : Int)
    | '+' :: rest => (leadingDigits rest).map fun n => (n : Int)
    | _ => (leadingDigits cs).map fun n => (n : Int)

/-- `PAGE_SIZE` from src/server (UserModel.ts excerpt, blogs router). -/
def PAGE_SIZE : Nat := 20

/-! ## Blog listing (blogs router, GET /) -/

/-- The per-blog item of the listing response (`blogs.map(...)`), with
the populated author summary and the personalised `hasLiked` flag. -/
structure BlogListItem where
  id : String
  title : String
  description : String
  datePublished : Nat
  likes : Nat
  authorUsername : String
  authorProfilePicture : String
  image : String
  hasLiked : Bool
  deriving Repr, DecidableEq

/-- Response of the blog-listing endpoint. -/
inductive BlogsListResponse where
  | error (status : Nat) (message : String)
  | ok (blogs : List BlogListItem) (hasMore : Bool) (nextPage : Option Int)
  deriving Repr, DecidableEq

/-- HTTP status of a listing response (`res.json` defaults to 200). -/
def BlogsListResponse.statusCode : BlogsListResponse → Nat
  | .error s _ => s
  | .ok _ _ _ => 200

/-- Insertion of one element into a list sorted descending by key. -/
def insertByKeyDesc {α : Type} (key : α → Nat) (x : α) : List α → List α
  | [] => [x]
  | y :: ys =>
    if key y ≤ key x then x :: y :: ys else y :: insertByKeyDesc key x ys

/-- `.sort({field: -1})`: the collection ordered by `key` descending. -/
def sortByKeyDesc {α : Type} (key : α → Nat) : List α → List α
  | [] => []
  | x :: xs => insertByKeyDesc key x (sortByKeyDesc key xs)

/-- `populate({path:"author"})` on one blog: resolve the stored author id
to the referenced user's display fields, then build the response item.
`sessionUserId` is `res.locals.session?.userId` (`none` when the viewer
is unauthenticated, read as `""` via `?? ""`). -/
def mkBlogListItem (users : List User) (sessionUserId : Option String)
    (b : Blog) : BlogListItem :=
  let author := users.find? (fun u => u._id == b.author)
  { id := b._id, title := b.title, description := b.description,
    datePublished := b.datePublished, likes := b.likes.length,
    authorUsername := (author.map User.username).getD "",
    authorProfilePicture := (author.map User.profilePicture).getD "",
    image := b.image,
    hasLiked := b.likes.contains (sessionUserId.getD "") }

/-- `GET /blogs?page=`.  Validates the page number, fetches the page of
blogs sorted by `datePublished` descending with `skip`/`limit`, counts
all documents, and computes `hasMore = page * PAGE_SIZE < totalDocuments`. -/
def getBlogs (s : Store) (pageQ : Option String)
    (sessionUserId : Option String) : BlogsListResponse :=
  match jsParseInt pageQ with
  | none => .error 400 "Invalid page number"
  | some page =>
    if page < 1 then .error 400 "Invalid page number"
    else
      let skip := ((page - 1) * (PAGE_SIZE : Int)).toNat
      let blogs := ((sortByKeyDesc Blog.datePublished s.blogs).drop skip).take
        PAGE_SIZE
      let totalDocuments := s.blogs.length
      let hasMore := decide (page * (PAGE_SIZE : Int) < (totalDocuments : Int))
      .ok (blogs.map (mkBlogListItem s.users sessionUserId)) hasMore
        (if hasMore then some (page + 1) else none)

/-! ## Like mutation (blogs router, POST /like/:id) -/

/-- Response of the like endpoint. -/
inductive LikeResponse where
  | ok (likes : Nat)
  | alreadyLiked
  deriving Repr, DecidableEq

/-- The conditional-update filter `{_id: id, likes: {$nin: [userId]}}`:
the document matches only when it has the requested id and its like set
does not already contain the user. -/
def likeCond (blogId userId : String) (b : Blog) : Bool :=
  b._id == blogId && !(b.likes.contains userId)

/-- The `$addToSet: {likes: userId}` update. -/
def likeUpd (userId : String) (b : Blog) : Blog :=
  { b with likes := addToSet b.likes userId }

/-- `POST /blogs/like/:id`: a single conditional update
`findOneAndUpdate({_id: id, likes: {$nin:[userId]}}, {$addToSet: {likes:
userId}}, {new:true})`.  Success returns the updated document's like
count; a zero-document match returns 400 "You have already liked this
blog". -/
def likeBlog (s : Store) (blogId userId : String) : LikeResponse × Store :=
  let r := findOneAndUpdate (likeCond blogId userId) (likeUpd userId) s.blogs
  match r.1 with
  | some updated => (.ok updated.likes.length, { s with blogs := r.2 })
  | none => (.alreadyLiked, { s with blogs := r.2 })

/-! ## Liked-by listing (blogs router, GET /likedBy/:id) -/

/-- MongoDB `$slice: [skip, limit]` on an embedded array (the handler
only ever passes `skip ≥ 0`, `limit = PAGE_SIZE + 1`; a negative skip
counts from the end). -/
def mongoSlice {α : Type} (l : List α) (skip : Int) (limit : Nat) : List α :=
  let start : Nat :=
    if skip < 0 then l.length - min (-skip).toNat l.length else skip.toNat
  (l.drop start).take limit

/-- A populated user summary (`populate("likes", "username
profilePicture")`). -/
structure UserSummary where
  _id : String
  username : String
  profilePicture : String
  deriving Repr, DecidableEq

/-- Response of the liked-by endpoint. -/
inductive LikedByResponse where
  | error (status : Nat) (message : String)
  | ok (users : List UserSummary) (hasMore : Bool) (nextPage : Option Int)
  deriving Repr, DecidableEq

/-- HTTP status of a liked-by response. -/
def LikedByResponse.statusCode : LikedByResponse → Nat
  | .error s _ => s
  | .ok _ _ _ => 200

/-- `populate` on an id array: each id resolves to the referenced user's
summary; ids with no matching user document are dropped. -/
def populateUsers (users : List User) (ids : List String) :
    List UserSummary :=
  ids.filterMap fun uid =>
    (users.find? (fun u => u._id == uid)).map fun u =>
      { _id := u._id, username := u.username,
        profilePicture := u.profilePicture }

/-- `GET /blogs/likedBy/:id?page=`.  Validates the page number, fetches
the blog with its `likes` array sliced to `[skip, PAGE_SIZE + 1]` and
populated, 404s when the blog is absent, computes
`hasMore = likes.length > PAGE_SIZE` on the fetched window, and returns
the whole fetched window as `users`. -/
def getLikedBy (s : Store) (blogId : String) (pageQ : Option String) :
    LikedByResponse :=
  match jsParseInt pageQ with
  | none => .error 400 "Invalid page number"
  | some page =>
    if page < 1 then .error 400 "Invalid page number"
    else
      let skip := (page - 1) * (PAGE_SIZE : Int)
      match s.blogs.find? (fun b => b._id == blogId) with
      | none => .error 404 "Blog not found"
      | some blog =>
        let likes := populateUsers s.users
          (mongoSlice blog.likes skip (PAGE_SIZE + 1))
        let hasMore := decide (likes.length > PAGE_SIZE)
        .ok likes hasMore (if hasMore then some (page + 1) else none)

/-! ## Comments listing (blogs router, GET /comments/:id) -/

/-- The per-comment item of the comments listing response. -/
structure CommentListItem where
  id : String
  content : String
  authorUsername : String
  authorProfilePicture : String
  datePosted : Nat
  deriving Repr, DecidableEq

/-- Response of the comments-listing endpoint. -/
inductive CommentsListResponse where
  | error (status : Nat) (message : String)
  | ok (comments : List CommentListItem) (hasMore : Bool)
      (nextPage : Option Int)
  deriving Repr, DecidableEq

/-- HTTP status of a comments-listing response. -/
def CommentsListResponse.statusCode : CommentsListResponse → Nat
  | .error s _ => s
  | .ok _ _ _ => 200

/-- Build one comments-listing item with the populated author summary. -/
def mkCommentListItem (users : List User) (c : BlogComment) :
    CommentListItem :=
  let author := users.find? (fun u => u._id == c.author)
  { id := c._id, content := c.content,
    authorUsername := (author.map User.username).getD "",
    authorProfilePicture := (author.map User.profilePicture).getD "",
    datePosted := c.datePosted }

/-- `GET /blogs/comments/:id?page=`.  Validates the page number, fetches
the page of comments of the blog sorted by `datePosted` descending with
`skip`/`limit`, counts all comments of the blog, and computes
`hasMore = page * PAGE_SIZE < totalDocuments`. -/
def getComments (s : Store) (blogId : String) (pageQ : Option String) :
    CommentsListResponse :=
  match jsParseInt pageQ with
  | none => .error 400 "Invalid page number"
  | some page =>
    if page < 1 then .error 400 "Invalid page number"
    else
      let skip := ((page - 1) * (PAGE_SIZE : Int)).toNat
      let blogComments := s.comments.filter (fun c => c.blog == blogId)
      let window := ((sortByKeyDesc BlogComment.datePosted
        blogComments).drop skip).take PAGE_SIZE
      let totalDocuments := blogComments.length
      let hasMore := decide (page * (PAGE_SIZE : Int) < (totalDocuments : Int))
      .ok (window.map (mkCommentListItem s.users)) hasMore
        (if hasMore then some (page + 1) else none)

/-! ## Comment creation (blogs router, POST /comment/:id) -/

/-- `MAX_COMMENT_CHARS` from the blogs router. -/
def MAX_COMMENT_CHARS : Nat := 1000

/-- Response of the comment-creation endpoint: 400 "Comment too long!",
or 200 with `{ comments: updateBlog?.comments.length }` — the count is
absent (`undefined`) when the parent blog was not found. -/
inductive CommentPostResponse where
  | tooLong
  | ok (comments : Option Nat)
  deriving Repr, DecidableEq

/-- `POST /blogs/comment/:id`.  Validates `content.length ≤
MAX_COMMENT_CHARS`, then unconditionally creates the comment document
referencing `blogId`, then appends its id to the parent blog's
`comments` array via a second independent `findOneAndUpdate`, and
returns 200 with the updated blog's comment count (optional). -/
def postComment (s : Store) (blogId content : String)
    (sessionUserId : Option String) (newCommentId : String) (now : Nat) :
    CommentPostResponse × Store :=
  if content.length > MAX_COMMENT_CHARS then (.tooLong, s)
  else
    let newComment : BlogComment :=
      { _id := newCommentId, content := content,
        author := sessionUserId.getD "", blog := blogId, datePosted := now }
    let s1 := { s with comments := s.comments ++ [newComment] }
    let r := findOneAndUpdate (fun b => b._id == blogId)
      (fun b => { b with comments := addToSet b.comments newCommentId })
      s1.blogs
    (.ok (r.1.map fun b => b.comments.length), { s1 with blogs := r.2 })

/-! ## Blog creation (blogs router, POST /add) -/

/-- Request body of `POST /blogs/add`; each field may be absent
(`none`). -/
structure AddBlogRequest where
  title : Option String
  content : Option String
  description : Option String
  image : Option String
  deriving Repr, DecidableEq

/-- JavaScript falsiness of a possibly-absent string: `undefined` and
`""` are falsy. -/
def strFalsy : Option String → Bool
  | none => true
  | some str => str == ""

/-- Response of the blog-creation endpoint. -/
inductive AddBlogResponse where
  | missingFields
  | titleTooLong
  | descriptionTooLong
  | created
  deriving Repr, DecidableEq

/-- HTTP status of a blog-creation response. -/
def AddBlogResponse.statusCode : AddBlogResponse → Nat
  | .created => 200
  | _ => 400

/-- `POST /blogs/add`.  Rejects with 400 when title, content or
description is missing (falsy), when `title.length > 100`, or when
`description.length > 500`; otherwise creates exactly one blog document. -/
def addBlog (s : Store) (req : AddBlogRequest)
    (sessionUserId : Option String) (newBlogId : String) (now : Nat) :
    AddBlogResponse × Store :=
  if strFalsy req.title || strFalsy req.content || strFalsy req.description
  then (.missingFields, s)
  else if (req.title.getD "").length > 100 then (.titleTooLong, s)
  else if (req.description.getD "").length > 500 then
    (.descriptionTooLong, s)
  else
    let newBlog : Blog :=
      { _id := newBlogId, title := req.title.getD "",
        content := req.content.getD "",
        description := req.description.getD "",
        image := req.image.getD "", datePublished := now,
        author := sessionUserId.getD "", likes := [], comments := [] }
    (.created, { s with blogs := s.blogs ++ [newBlog] })

/-! ## Response accessors used by the theorems -/

/-- The `hasMore` flag of a blog-listing response, when successful. -/
def BlogsListResponse.hasMoreFlag : BlogsListResponse → Option Bool
  | .error _ _ => none
  | .ok _ hasMore _ => some hasMore

/-- The `hasMore` flag of a liked-by response, when successful. -/
def LikedByResponse.hasMoreFlag : LikedByResponse → Option Bool
  | .error _ _ => none
  | .ok _ hasMore _ => some hasMore

/-- The number of delivered `users` of a liked-by response. -/
def LikedByResponse.userCount : LikedByResponse → Option Nat
  | .error _ _ => none
  | .ok users _ _ => some users.length

/-- The delivered `users` list of a liked-by response. -/
def LikedByResponse.usersOf : LikedByResponse → Option (List UserSummary)
  | .error _ _ => none
  | .ok users _ _ => some users

/-- The `hasMore` flag of a comments-listing response, when successful. -/
def CommentsListResponse.hasMoreFlag : CommentsListResponse → Option Bool
  | .error _ _ => none
  | .ok _ hasMore _ => some hasMore

/-- The number of delivered `comments` of a comments-listing response. -/
def CommentsListResponse.itemCount : CommentsListResponse → Option Nat
  | .error _ _ => none
  | .ok items _ _ => some items.length

/-! ## Helper lemmas on the store operations -/

theorem deleteFirst_length {α : Type} (p : α → Bool) (l : List α)
    (h : ∃ x ∈ l, p x = true) :
    (deleteFirst p l).length + 1 = l.length := by
  induction l with
  | nil => obtain ⟨x, hx, _⟩ := h; cases hx
  | cons y ys ih =>
    by_cases hy : p y = true
    · simp [deleteFirst, hy]
    · obtain ⟨x, hx, hpx⟩ := h
      rcases List.mem_cons.mp hx with rfl | hx'
      · exact absurd hpx hy
      · simp only [deleteFirst, hy, if_neg, Bool.false_eq_true,
          not_false_eq_true, List.length_cons]
        rw [← ih ⟨x, hx', hpx⟩]

theorem findOneAndUpdate_of_no_match {α : Type} (p : α → Bool) (f : α → α)
    (l : List α) (h : ∀ x ∈ l, p x = false) :
    findOneAndUpdate p f l = (none, l) := by
  induction l with
  | nil => rfl
  | cons y ys ih =>
    have hy := h y (List.mem_cons_self y ys)
    simp only [findOneAndUpdate, hy, Bool.false_eq_true, if_neg,
      not_false_eq_true]
    rw [ih (fun x hx => h x (List.mem_cons_of_mem y hx))]

/-- When `find?` locates `x`, `findOneAndUpdate` splits the list around
the first match: no earlier element matches, and the result replaces
that first match by `f x`. -/
theorem findOneAndUpdate_decomp {α : Type} (p : α → Bool) (f : α → α)
    (l : List α) (x : α) (h : l.find? p = some x) :
    ∃ l₁ l₂, l = l₁ ++ x :: l₂ ∧ (∀ y ∈ l₁, p y = false) ∧ p x = true ∧
      findOneAndUpdate p f l = (some (f x), l₁ ++ f x :: l₂) := by
  induction l with
  | nil => cases h
  | cons y ys ih =>
    by_cases hy : p y = true
    · rw [List.find?_cons_of_pos _ hy] at h
      obtain rfl : y = x := by injection h
      exact ⟨[], ys, rfl, by simp, hy, by simp [findOneAndUpdate, hy]⟩
    · rw [List.find?_cons_of_neg _ hy] at h
      obtain ⟨l₁, l₂, hsplit, hnone, hpx, heq⟩ := ih h
      refine ⟨y :: l₁, l₂, by simp [hsplit], ?_, hpx, ?_⟩
      · intro z hz
        rcases List.mem_cons.mp hz with rfl | hz'
        · exact Bool.not_eq_true _ ▸ hy
        · exact hnone z hz'
      · simp only [findOneAndUpdate, hy, Bool.false_eq_true, if_neg,
          not_false_eq_true, heq, List.cons_append]

theorem findOneAndUpdate_id_of_find? {α : Type} (p : α → Bool) (u : α)
    (l : List α) (h : l.find? p = some u) :
    (findOneAndUpdate p (fun _ => u) l).2 = l := by
  obtain ⟨l₁, l₂, hsplit, _, _, heq⟩ := findOneAndUpdate_decomp p _ l u h
  rw [heq, hsplit]

theorem find?_isSome_of_mem {α : Type} (p : α → Bool) (l : List α) (x : α)
    (hx : x ∈ l) (hpx : p x = true) : (l.find? p).isSome := by
  induction l with
  | nil => cases hx
  | cons y ys ih =>
    by_cases hy : p y = true
    · rw [List.find?_cons_of_pos _ hy]; rfl
    · rw [List.find?_cons_of_neg _ hy]
      rcases List.mem_cons.mp hx with rfl | hx'
      · exact absurd hpx hy
      · exact ih hx'

/-! ## Sample data for witnesses -/

/-- An empty store. -/
def emptyStore : Store := { users := [], blogs := [], comments := [], codes := [] }

/-- A sample stored account for `a@b.com`. -/
def sampleUser : User :=
  { _id := "u0", email := "a@b.com", password := "h0", username := "alice",
    profilePicture := "p", biography := "b" }

/-- A store holding only `sampleUser` and its validation code. -/
def oneUserStore : Store :=
  { users := [sampleUser], blogs := [], comments := [],
    codes := [{ email := "a@b.com", code := 111111, expiration := 10 }] }

/-- A signup request for the already-stored email `a@b.com` with a valid
password. -/
def resignupReq : SignupRequest :=
  { email := "a@b.com", password := "secret1", username := "alice" }

/-! ## Signup duplicate-email branch -/

/-- Shared lemma: whenever the duplicate-email lookup finds any account,
the signup handler takes the delete-and-reject branch: the first stored
user with that email is deleted and the response is the 400
"Register again" message.  (The `verified` read is falsy for every
stored user, since the schema has no such field, so the plain
"Email already exists." branch cannot be taken.) -/
theorem signup_duplicate_branch (isValidEmail : String → Bool) (s : Store)
    (req : SignupRequest) (hashedPassword newUserId : String)
    (code now : Nat) (h : (findUserByEmail s.users req.email).isSome) :
    signup isValidEmail s req hashedPassword newUserId code now =
      ({ status := 400,
         message := "Email already exists and not verified. Register again." },
       { s with users := deleteFirst (fun u => u.email == req.email) s.users }) := by
  obtain ⟨u, hu⟩ := Option.isSome_iff_exists.mp h
  unfold signup
  rw [hu]
  rfl

/-- C1: the claim states that a signup whose email matches an existing
unverified account deletes the prior record **and proceeds with the
registration** (new user, new validation code, success response).  The
code instead deletes the record and rejects the request with status 400
("Register again"): at this concrete input the prior user is deleted but
the response status is 400, no new user is created and no validation
code is created. -/
theorem C1_counterexample :
    (signup (fun _ => true) oneUserStore resignupReq "hash" "u1" 222222 0).1.status
        = 400 ∧
    ((signup (fun _ => true) oneUserStore resignupReq "hash" "u1" 222222 0).2).users
        = [] ∧
    ((signup (fun _ => true) oneUserStore resignupReq "hash" "u1" 222222 0).2).codes
        = oneUserStore.codes := by
  refine ⟨rfl, rfl, rfl⟩

/-- C1 (amended): for every signup request whose email matches an
existing account, the account is treated as unverified (the schema
persists no verified flag), the prior user record is deleted, and the
request is rejected with status 400 telling the client to register
again; no new user and no validation code are created by that request —
re-registration proceeds only on a subsequent signup. -/
theorem C1_duplicate_signup_deletes_and_rejects
    (isValidEmail : String → Bool) (s : Store) (req : SignupRequest)
    (hashedPassword newUserId : String) (code now : Nat)
    (h : (findUserByEmail s.users req.email).isSome) :
    signup isValidEmail s req hashedPassword newUserId code now =
      ({ status := 400,
         message := "Email already exists and not verified. Register again." },
       { s with users := deleteFirst (fun u => u.email == req.email) s.users }) :=
  signup_duplicate_branch isValidEmail s req hashedPassword newUserId code now h

/-- C1 witness: the amended theorem applied at a concrete store that
holds an account for the requested email. -/
theorem C1_duplicate_signup_witness :
    (findUserByEmail oneUserStore.users resignupReq.email).isSome ∧
    signup (fun _ => true) oneUserStore resignupReq "hash" "u1" 222222 0 =
      ({ status := 400,
         message := "Email already exists and not verified. Register again." },
       { oneUserStore with
          users := deleteFirst (fun u => u.email == resignupReq.email)
            oneUserStore.users }) :=
  ⟨by decide,
   C1_duplicate_signup_deletes_and_rejects (fun _ => true) oneUserStore
     resignupReq "hash" "u1" 222222 0 (by decide)⟩

/-- C5: the User schema declares no `verified` field, so the
verify-email handler's `user.verified = true; user.save()` persists
nothing (the stored users are unchanged by verification), and the
signup branch rejecting a *verified* duplicate is unreachable: whenever
any account with the requested email exists, signup takes the
treat-as-unverified branch, deleting the record and answering with the
"Register again" message. -/
theorem C5_verified_never_persisted :
    (∀ s email otp now, ((verifyEmail s email otp now).2).users = s.users) ∧
    (∀ (isValidEmail : String → Bool) s req hashedPassword newUserId code now,
      (findUserByEmail s.users req.email).isSome →
      (signup isValidEmail s req hashedPassword newUserId code now).1.message =
        "Email already exists and not verified. Register again." ∧
      ((signup isValidEmail s req hashedPassword newUserId code now).2).users =
        deleteFirst (fun u => u.email == req.email) s.users) := by
  constructor
  · intro s email otp now
    unfold verifyEmail
    split
    · rfl
    · simp only
      cases hu : findUserByEmail s.users email with
      | none => rfl
      | some u =>
        simp only
        unfold findUserByEmail at hu
        exact findOneAndUpdate_id_of_find? (fun v : User => v.email == email)
          u s.users hu
  · intro isValidEmail s req hashedPassword newUserId code now h
    rw [signup_duplicate_branch isValidEmail s req hashedPassword newUserId
      code now h]
    exact ⟨rfl, rfl⟩

/-- C5 witness: verification with a valid code leaves the stored users
untouched, and a duplicate signup takes the unverified branch, at a
concrete store. -/
theorem C5_verified_never_persisted_witness :
    ((verifyEmail oneUserStore "a@b.com" 111111 0).2).users =
      oneUserStore.users ∧
    ((findUserByEmail oneUserStore.users resignupReq.email).isSome ∧
      (signup (fun _ => true) oneUserStore resignupReq "hash" "u1" 222222 0).1.message =
        "Email already exists and not verified. Register again." ∧
      ((signup (fun _ => true) oneUserStore resignupReq "hash" "u1" 222222 0).2).users =
        deleteFirst (fun u => u.email == resignupReq.email) oneUserStore.users) :=
  ⟨C5_verified_never_persisted.1 oneUserStore "a@b.com" 111111 0,
   by decide,
   C5_verified_never_persisted.2 (fun _ => true) oneUserStore resignupReq
     "hash" "u1" 222222 0 (by decide)⟩

/-- C9: the duplicate-email lookup and the deletion of an existing
account happen before the email-format and password-length checks: a
signup whose password is invalid (shorter than `MIN_PASSWORD_LENGTH`)
but whose email matches a stored account still deletes that account,
while the request itself is answered with status 400. -/
theorem C9_lookup_delete_precede_validation
    (isValidEmail : String → Bool) (s : Store) (req : SignupRequest)
    (hashedPassword newUserId : String) (code now : Nat) (u : User)
    (hu : u ∈ s.users) (hemail : u.email = req.email)
    (_hpw : req.password.length < MIN_PASSWORD_LENGTH) :
    (signup isValidEmail s req hashedPassword newUserId code now).1.status
        = 400 ∧
    ((signup isValidEmail s req hashedPassword newUserId code now).2).users =
      deleteFirst (fun v => v.email == req.email) s.users ∧
    ((signup isValidEmail s req hashedPassword newUserId code now).2).users.length
        + 1 = s.users.length := by
  have hsome : (findUserByEmail s.users req.email).isSome :=
    find?_isSome_of_mem _ s.users u hu (by simp [hemail])
  rw [signup_duplicate_branch isValidEmail s req hashedPassword newUserId
    code now hsome]
  exact ⟨rfl, rfl,
    deleteFirst_length _ s.users ⟨u, hu, by simp [hemail]⟩⟩

/-- C9 witness: a concrete signup with a 3-character password and a
matching stored account: the account is deleted (user count drops from
one to zero) although the request is rejected. -/
theorem C9_lookup_delete_precede_validation_witness :
    sampleUser ∈ oneUserStore.users ∧
    sampleUser.email = "a@b.com" ∧
    ("abc" : String).length < MIN_PASSWORD_LENGTH ∧
    ((signup (fun _ => true) oneUserStore
        { email := "a@b.com", password := "abc", username := "x" }
        "hash" "u1" 222222 0).1.status = 400 ∧
      ((signup (fun _ => true) oneUserStore
        { email := "a@b.com", password := "abc", username := "x" }
        "hash" "u1" 222222 0).2).users =
        deleteFirst (fun v => v.email == "a@b.com") oneUserStore.users ∧
      ((signup (fun _ => true) oneUserStore
        { email := "a@b.com", password := "abc", username := "x" }
        "hash" "u1" 222222 0).2).users.length + 1 =
        oneUserStore.users.length) :=
  ⟨by decide, rfl, by decide,
   C9_lookup_delete_precede_validation (fun _ => true) oneUserStore
     { email := "a@b.com", password := "abc", username := "x" }
     "hash" "u1" 222222 0 sampleUser (by decide) rfl (by decide)⟩

/-! ## Page validation (C6) -/

/-- C6: whenever the page query parameter is absent, non-numeric, or
parses to a value below 1, each listing endpoint (blog listing,
liked-by, comments) answers 400 "Invalid page number"; the answer is a
constant independent of the store, so no store read takes place. -/
theorem C6_invalid_page_rejected (pageQ : Option String)
    (h : jsParseInt pageQ = none ∨
      ∃ p, jsParseInt pageQ = some p ∧ p < 1) :
    ∀ (s : Store) (blogId : String) (sessionUserId : Option String),
      getBlogs s pageQ sessionUserId = .error 400 "Invalid page number" ∧
      getLikedBy s blogId pageQ = .error 400 "Invalid page number" ∧
      getComments s blogId pageQ = .error 400 "Invalid page number" := by
  intro s blogId sessionUserId
  rcases h with h | ⟨p, hp, hlt⟩
  · unfold getBlogs getLikedBy getComments
    rw [h]
    exact ⟨rfl, rfl, rfl⟩
  · unfold getBlogs getLikedBy getComments
    rw [hp]
    refine ⟨?_, ?_, ?_⟩ <;> (dsimp only; rw [if_pos hlt])

/-- C6 witness: the three rejection modes at concrete inputs — an
absent parameter, the non-numeric string "abc", and the value "0". -/
theorem C6_invalid_page_rejected_witness :
    (getBlogs emptyStore none none = .error 400 "Invalid page number" ∧
      getLikedBy emptyStore "b" none = .error 400 "Invalid page number" ∧
      getComments emptyStore "b" none = .error 400 "Invalid page number") ∧
    (getBlogs emptyStore (some "abc") none =
        .error 400 "Invalid page number" ∧
      getLikedBy emptyStore "b" (some "abc") =
        .error 400 "Invalid page number" ∧
      getComments emptyStore "b" (some "abc") =
        .error 400 "Invalid page number") ∧
    (getBlogs emptyStore (some "0") none = .error 400 "Invalid page number" ∧
      getLikedBy emptyStore "b" (some "0") =
        .error 400 "Invalid page number" ∧
      getComments emptyStore "b" (some "0") =
        .error 400 "Invalid page number") :=
  ⟨C6_invalid_page_rejected none (Or.inl rfl) emptyStore "b" none,
   C6_invalid_page_rejected (some "abc") (Or.inl rfl) emptyStore "b" none,
   C6_invalid_page_rejected (some "0") (Or.inr ⟨0, rfl, by decide⟩)
     emptyStore "b" none⟩

/-! ## hasMore semantics (C2) -/

/-- A sample comment attached to blog `b1`. -/
def sampleComment : BlogComment :=
  { _id := "c", content := "", author := "", blog := "b1", datePosted := 0 }

/-- A sample blog with no likes and no comments. -/
def sampleBlog : Blog :=
  { _id := "b1", title := "t", content := "c", description := "d",
    image := "", datePublished := 0, author := "a", likes := [],
    comments := [] }

/-- A store whose blog `b1` carries 21 comments (one more than a page). -/
def manyCommentsStore : Store :=
  { users := [], blogs := [sampleBlog],
    comments := List.replicate (PAGE_SIZE + 1) sampleComment, codes := [] }

/-- C2 counterexample: the claim states that the comments listing's
`hasMore` is true iff the fetched window holds more than `PAGE_SIZE`
elements.  The handler instead compares `page * PAGE_SIZE` with the
total comment count: with 21 stored comments and page 1 the fetched
window holds exactly 20 elements (not more than `PAGE_SIZE`), yet
`hasMore` is reported true. -/
theorem C2_counterexample :
    (getComments manyCommentsStore "b1" (some "1")).itemCount =
      some PAGE_SIZE ∧
    ¬ PAGE_SIZE > PAGE_SIZE ∧
    (getComments manyCommentsStore "b1" (some "1")).hasMoreFlag =
      some true := by
  refine ⟨rfl, by decide, rfl⟩

/-- C2 (amended): for every valid page request, `hasMore` is true iff
`page * pageSize` is below the total matching count for the **blog
listing and the comments listing**, while for the **liked-by** listing
it is true iff the fetched window (the like-id slice `[skip, pageSize+1]`
resolved to user summaries) holds more than `pageSize` elements. -/
theorem C2_hasMore_characterisation :
    (∀ (s : Store) (q : Option String) (sess : Option String) (p : Int),
      jsParseInt q = some p → 1 ≤ p →
      (getBlogs s q sess).hasMoreFlag =
        some (decide (p * (PAGE_SIZE : Int) < (s.blogs.length : Int)))) ∧
    (∀ (s : Store) (blogId : String) (q : Option String) (p : Int)
        (b : Blog),
      jsParseInt q = some p → 1 ≤ p →
      s.blogs.find? (fun b => b._id == blogId) = some b →
      (getLikedBy s blogId q).hasMoreFlag =
        some (decide ((populateUsers s.users (mongoSlice b.likes
          ((p - 1) * (PAGE_SIZE : Int)) (PAGE_SIZE + 1))).length >
            PAGE_SIZE))) ∧
    (∀ (s : Store) (blogId : String) (q : Option String) (p : Int),
      jsParseInt q = some p → 1 ≤ p →
      (getComments s blogId q).hasMoreFlag =
        some (decide (p * (PAGE_SIZE : Int) <
          (((s.comments.filter (fun c => c.blog == blogId)).length : Nat) :
            Int)))) := by
  refine ⟨?_, ?_, ?_⟩
  · intro s q sess p hq hp
    have h1 : ¬ p < 1 := by omega
    unfold getBlogs
    rw [hq]
    dsimp only
    rw [if_neg h1]
    rfl
  · intro s blogId q p b hq hp hb
    have h1 : ¬ p < 1 := by omega
    unfold getLikedBy
    rw [hq]
    dsimp only
    rw [if_neg h1, hb]
    rfl
  · intro s blogId q p hq hp
    have h1 : ¬ p < 1 := by omega
    unfold getComments
    rw [hq]
    dsimp only
    rw [if_neg h1]
    rfl

/-- C2 witness: the three characterisations applied at the concrete
21-comment store with page 1. -/
theorem C2_hasMore_characterisation_witness :
    ((getBlogs manyCommentsStore (some "1") none).hasMoreFlag =
      some (decide ((1 : Int) * (PAGE_SIZE : Int) <
        (manyCommentsStore.blogs.length : Int))) ∧
    (getLikedBy manyCommentsStore "b1" (some "1")).hasMoreFlag =
      some (decide ((populateUsers manyCommentsStore.users (mongoSlice
        sampleBlog.likes (((1 : Int) - 1) * (PAGE_SIZE : Int))
        (PAGE_SIZE + 1))).length > PAGE_SIZE)) ∧
    (getComments manyCommentsStore "b1" (some "1")).hasMoreFlag =
      some (decide ((1 : Int) * (PAGE_SIZE : Int) <
        (((manyCommentsStore.comments.filter
          (fun c => c.blog == "b1")).length : Nat) : Int)))) :=
  ⟨C2_hasMore_characterisation.1 manyCommentsStore (some "1") none 1 rfl
     (by decide),
   C2_hasMore_characterisation.2.1 manyCommentsStore "b1" (some "1") 1
     sampleBlog rfl (by decide) (by decide),
   C2_hasMore_characterisation.2.2 manyCommentsStore "b1" (some "1") 1 rfl
     (by decide)⟩

/-! ## Liked-by window delivery (C4) -/

/-- The 21 user ids liking the sample blog `b2`. -/
def likerIds : List String :=
  (List.range (PAGE_SIZE + 1)).map (fun i => "u" ++ toString i)

/-- The 21 corresponding stored users. -/
def likerUsers : List User :=
  likerIds.map (fun i =>
    { _id := i, email := "", password := "", username := i,
      profilePicture := "", biography := "" })

/-- A blog liked by all 21 users. -/
def likedBlog : Blog :=
  { _id := "b2", title := "t", content := "c", description := "d",
    image := "", datePublished := 0, author := "a", likes := likerIds,
    comments := [] }

/-- The store for the liked-by counterexample. -/
def likedStore : Store :=
  { users := likerUsers, blogs := [likedBlog], comments := [], codes := [] }

/-- C4 counterexample: the claim states the extra fetched element beyond
`pageSize` is *not* part of the delivered page.  The handler returns the
whole fetched window as `users`: with 21 likes and page 1 the response
delivers 21 user summaries — `pageSize + 1`, including the extra
element — alongside `hasMore = true`. -/
theorem C4_counterexample :
    (getLikedBy likedStore "b2" (some "1")).userCount =
      some (PAGE_SIZE + 1) ∧
    (getLikedBy likedStore "b2" (some "1")).hasMoreFlag = some true := by
  exact ⟨rfl, rfl⟩

/-- C4 (amended): for every valid liked-by page request on an existing
blog, the handler slices the embedded like-id array with the window
`[skip, pageSize + 1]` and uses the extra fetched element to detect
`hasMore`, but it delivers the **entire fetched window** — up to
`pageSize + 1` resolved users — to the caller rather than trimming it
to `pageSize`. -/
theorem C4_window_fully_delivered (s : Store) (blogId : String)
    (q : Option String) (p : Int) (b : Blog)
    (hq : jsParseInt q = some p) (hp : 1 ≤ p)
    (hb : s.blogs.find? (fun b => b._id == blogId) = some b) :
    (getLikedBy s blogId q).usersOf =
      some (populateUsers s.users (mongoSlice b.likes
        ((p - 1) * (PAGE_SIZE : Int)) (PAGE_SIZE + 1))) ∧
    (getLikedBy s blogId q).hasMoreFlag =
      some (decide ((populateUsers s.users (mongoSlice b.likes
        ((p - 1) * (PAGE_SIZE : Int)) (PAGE_SIZE + 1))).length >
          PAGE_SIZE)) := by
  have h1 : ¬ p < 1 := by omega
  constructor <;>
    (unfold getLikedBy; rw [hq]; dsimp only; rw [if_neg h1, hb]; rfl)

/-- C4 witness: the amended theorem at the concrete 21-liker store, page
1: all 21 fetched summaries are delivered. -/
theorem C4_window_fully_delivered_witness :
    (getLikedBy likedStore "b2" (some "1")).usersOf =
      some (populateUsers likedStore.users (mongoSlice likedBlog.likes
        (((1 : Int) - 1) * (PAGE_SIZE : Int)) (PAGE_SIZE + 1))) ∧
    (getLikedBy likedStore "b2" (some "1")).hasMoreFlag =
      some (decide ((populateUsers likedStore.users (mongoSlice
        likedBlog.likes (((1 : Int) - 1) * (PAGE_SIZE : Int))
        (PAGE_SIZE + 1))).length > PAGE_SIZE)) :=
  C4_window_fully_delivered likedStore "b2" (some "1") 1 likedBlog rfl
    (by decide) (by decide)

/-! ## Like idempotence (C3) -/

theorem contains_true_iff (l : List String) (x : String) :
    l.contains x = true ↔ x ∈ l := List.elem_iff

/-- Both branches of the like handler store the collection produced by
the conditional update. -/
theorem likeBlog_store_blogs (s : Store) (bid uid : String) :
    (likeBlog s bid uid).2 =
      { s with blogs :=
        (findOneAndUpdate (likeCond bid uid) (likeUpd uid) s.blogs).2 } := by
  unfold likeBlog
  dsimp only
  cases hr : findOneAndUpdate (likeCond bid uid) (likeUpd uid) s.blogs with
  | mk r1 r2 => cases r1 <;> rfl

/-- When no document matches the conditional filter, the like handler
answers the conflict error and leaves the store untouched. -/
theorem likeBlog_no_match (s : Store) (bid uid : String)
    (h : ∀ b ∈ s.blogs, likeCond bid uid b = false) :
    likeBlog s bid uid = (.alreadyLiked, s) := by
  unfold likeBlog
  rw [findOneAndUpdate_of_no_match (likeCond bid uid) (likeUpd uid)
    s.blogs h]

/-- A matched document has the requested id and does not yet contain
the user id. -/
theorem likeCond_true (bid uid : String) (b : Blog)
    (h : likeCond bid uid b = true) :
    b._id = bid ∧ b.likes.contains uid = false := by
  unfold likeCond at h
  rw [Bool.and_eq_true] at h
  obtain ⟨h1, h2⟩ := h
  refine ⟨beq_iff_eq.mp h1, ?_⟩
  cases hcc : b.likes.contains uid with
  | false => rfl
  | true => rw [hcc] at h2; cases h2

/-- C3: the like operation adds the user id to a blog's like set only
when it is absent (the conditional filter requires `$nin`), so (1) the
no-duplicate invariant on like sets is preserved by every like call —
after any sequence of calls a user id appears at most once; (2) a
successful call answers the new like count (the old count plus one);
(3) when every blog with the requested id already contains the user id,
the call answers the conflict error (`400 "You have already liked this
blog"`) and leaves the store unchanged; (4) liking, then liking again
with the same user (ids being unique), leaves the store unchanged and
answers the conflict error rather than succeeding silently. -/
theorem C3_like_idempotent :
    (∀ (s : Store) (bid uid : String),
      (∀ b ∈ s.blogs, b.likes.Nodup) →
      ∀ b' ∈ ((likeBlog s bid uid).2).blogs, b'.likes.Nodup) ∧
    (∀ (s : Store) (bid uid : String) (b : Blog),
      s.blogs.find? (likeCond bid uid) = some b →
      (likeBlog s bid uid).1 = .ok (b.likes.length + 1)) ∧
    (∀ (s : Store) (bid uid : String),
      (∀ b ∈ s.blogs, b._id = bid → uid ∈ b.likes) →
      likeBlog s bid uid = (.alreadyLiked, s)) ∧
    (∀ (s : Store) (bid uid : String) (b : Blog),
      s.blogs.find? (likeCond bid uid) = some b →
      s.blogs.countP (fun b => b._id == bid) ≤ 1 →
      likeBlog ((likeBlog s bid uid).2) bid uid =
        (.alreadyLiked, (likeBlog s bid uid).2)) := by
  refine ⟨?inv, ?count, ?conflict, ?twice⟩
  case inv =>
    intro s bid uid hinv b' hb'
    rw [likeBlog_store_blogs] at hb'
    dsimp only at hb'
    cases hfind : s.blogs.find? (likeCond bid uid) with
    | none =>
      rw [findOneAndUpdate_of_no_match (likeCond bid uid) (likeUpd uid)
        s.blogs (fun x hx =>
          Bool.eq_false_iff.mpr (List.find?_eq_none.mp hfind x hx))] at hb'
      exact hinv b' hb'
    | some b =>
      obtain ⟨l₁, l₂, hsplit, _, hpb, heq⟩ :=
        findOneAndUpdate_decomp (likeCond bid uid) (likeUpd uid) s.blogs b
          hfind
      rw [heq] at hb'
      rcases List.mem_append.mp hb' with h1 | h2
      · exact hinv b' (hsplit ▸ List.mem_append_left _ h1)
      · rcases List.mem_cons.mp h2 with rfl | h3
        · obtain ⟨_, hc⟩ := likeCond_true bid uid b hpb
          have hnotmem : uid ∉ b.likes := fun hmem =>
            by rw [(contains_true_iff b.likes uid).mpr hmem] at hc; cases hc
          have hbmem : b ∈ s.blogs := hsplit ▸
            List.mem_append_right _ (List.mem_cons_self b l₂)
          have hnd : b.likes.Nodup := hinv b hbmem
          show (likeUpd uid b).likes.Nodup
          unfold likeUpd addToSet
          simp only [hc, Bool.false_eq_true, if_false]
          exact List.nodup_append.mpr ⟨hnd, List.nodup_singleton uid,
            List.disjoint_singleton.mpr hnotmem⟩
        · exact hinv b' (hsplit ▸ List.mem_append_right _
            (List.mem_cons_of_mem b h3))
  case count =>
    intro s bid uid b hfind
    obtain ⟨l₁, l₂, _, _, hpb, heq⟩ :=
      findOneAndUpdate_decomp (likeCond bid uid) (likeUpd uid) s.blogs b
        hfind
    obtain ⟨_, hc⟩ := likeCond_true bid uid b hpb
    have hnm : uid ∉ b.likes := fun hm => by
      rw [(contains_true_iff _ _).mpr hm] at hc; cases hc
    unfold likeBlog
    rw [heq]
    dsimp only
    unfold likeUpd addToSet
    simp [hc, hnm]
  case conflict =>
    intro s bid uid h
    refine likeBlog_no_match s bid uid (fun x hx => ?_)
    unfold likeCond
    by_cases hid : x._id = bid
    · rw [(contains_true_iff x.likes uid).mpr (h x hx hid)]
      simp
    · have : (x._id == bid) = false := by
        simp only [beq_eq_false_iff_ne, ne_eq]; exact hid
      rw [this]
      simp
  case twice =>
    intro s bid uid b hfind hcount
    obtain ⟨l₁, l₂, hsplit, hnone, hpb, heq⟩ :=
      findOneAndUpdate_decomp (likeCond bid uid) (likeUpd uid) s.blogs b
        hfind
    obtain ⟨hid, hc⟩ := likeCond_true bid uid b hpb
    have hstore : (likeBlog s bid uid).2 =
        { s with blogs := l₁ ++ likeUpd uid b :: l₂ } := by
      rw [likeBlog_store_blogs, heq]
    have hzero : l₂.countP (fun b => b._id == bid) = 0 := by
      have h' := hcount
      rw [hsplit, List.countP_append, List.countP_cons] at h'
      simp only [hid, beq_self_eq_true, if_true, if_pos] at h'
      omega
    have hall : ∀ x ∈ l₁ ++ likeUpd uid b :: l₂,
        likeCond bid uid x = false := by
      intro x hx
      rcases List.mem_append.mp hx with h1 | h2
      · exact hnone x h1
      · rcases List.mem_cons.mp h2 with rfl | h3
        · have hnm : uid ∉ b.likes := fun hm => by
            rw [(contains_true_iff _ _).mpr hm] at hc; cases hc
          unfold likeCond likeUpd addToSet
          simp [hnm]
        · have hq : (x._id == bid) = false := by
            have := List.countP_eq_zero.mp hzero x h3
            simpa using this
          unfold likeCond
          simp [hq]
    rw [hstore]
    exact likeBlog_no_match _ bid uid hall

/-- A store holding only `sampleBlog` (empty like set). -/
def oneBlogStore : Store :=
  { users := [], blogs := [sampleBlog], comments := [], codes := [] }

/-- C3 witness: a blog with unique id and an empty like set: the
invariant is preserved, a like answers count 1, a second like answers
the conflict and leaves the store unchanged. -/
theorem C3_like_idempotent_witness :
    (∀ b' ∈ ((likeBlog oneBlogStore "b1" "u1").2).blogs,
      b'.likes.Nodup) ∧
    (likeBlog oneBlogStore "b1" "u1").1 =
      .ok (sampleBlog.likes.length + 1) ∧
    likeBlog ((likeBlog oneBlogStore "b1" "u1").2) "b1" "u1" =
      (.alreadyLiked, (likeBlog oneBlogStore "b1" "u1").2) :=
  ⟨C3_like_idempotent.1 oneBlogStore "b1" "u1"
      (by intro b hb
          rw [show oneBlogStore.blogs = [sampleBlog] from rfl,
            List.mem_singleton] at hb
          subst hb; simp [sampleBlog]),
   C3_like_idempotent.2.1 oneBlogStore "b1" "u1" sampleBlog (by decide),
   C3_like_idempotent.2.2.2 oneBlogStore "b1" "u1" sampleBlog (by decide)
      (by decide)⟩

/-! ## Comment creation (C7, C8) -/

/-- HTTP status of a comment-creation response. -/
def CommentPostResponse.statusCode : CommentPostResponse → Nat
  | .tooLong => 400
  | .ok _ => 200

/-- C7: a comment whose content exceeds `MAX_COMMENT_CHARS` (1000) is
rejected with the 400 "Comment too long!" response before any mutation —
the store is returned unchanged, so no comment document is persisted and
no blog document is modified; content of at most 1000 units passes the
check (the response is not the rejection) and the comment document is
persisted. -/
theorem C7_comment_length_validated :
    (∀ (s : Store) (blogId content : String) (sess : Option String)
        (cid : String) (now : Nat),
      content.length > MAX_COMMENT_CHARS →
      postComment s blogId content sess cid now = (.tooLong, s) ∧
      CommentPostResponse.statusCode .tooLong = 400) ∧
    (∀ (s : Store) (blogId content : String) (sess : Option String)
        (cid : String) (now : Nat),
      content.length ≤ MAX_COMMENT_CHARS →
      (postComment s blogId content sess cid now).1 ≠ .tooLong ∧
      ((postComment s blogId content sess cid now).2).comments =
        s.comments ++
          [{ _id := cid, content := content, author := sess.getD "",
             blog := blogId, datePosted := now }]) := by
  constructor
  · intro s blogId content sess cid now h
    unfold postComment
    rw [if_pos h]
    exact ⟨rfl, rfl⟩
  · intro s blogId content sess cid now h
    unfold postComment
    rw [if_neg (by omega)]
    dsimp only
    exact ⟨(fun hcontra => nomatch hcontra), rfl⟩

/-- Content one unit over the limit. -/
def longContent : String := String.mk (List.replicate (MAX_COMMENT_CHARS + 1) 'a')

set_option maxRecDepth 10000 in
/-- C7 witness: a 1001-character comment is rejected with the store
unchanged; a 2-character comment passes and is appended to the comments
collection. -/
theorem C7_comment_length_validated_witness :
    (longContent.length > MAX_COMMENT_CHARS ∧
      postComment oneBlogStore "b1" longContent none "c1" 0 =
        (.tooLong, oneBlogStore)) ∧
    (("hi" : String).length ≤ MAX_COMMENT_CHARS ∧
      (postComment oneBlogStore "b1" "hi" none "c1" 0).1 ≠ .tooLong ∧
      ((postComment oneBlogStore "b1" "hi" none "c1" 0).2).comments =
        oneBlogStore.comments ++
          [{ _id := "c1", content := "hi", author := "", blog := "b1",
             datePosted := 0 }]) :=
  ⟨⟨by decide,
    (C7_comment_length_validated.1 oneBlogStore "b1" longContent none
      "c1" 0 (by decide)).1⟩,
   ⟨by decide,
    C7_comment_length_validated.2 oneBlogStore "b1" "hi" none "c1" 0
      (by decide)⟩⟩

/-- C8: posting a comment whose blog id matches no stored blog still
answers 200 with an *absent* comments count (`updateBlog?.comments.length`
is `undefined` for a null update result), and the comment document is
persisted up front with its `blog` field referencing the nonexistent id —
an orphan created by the normal path, not only by a crash between the two
writes; the blogs collection is untouched. -/
theorem C8_orphan_comment_on_missing_blog (s : Store)
    (blogId content : String) (sess : Option String) (cid : String)
    (now : Nat) (hno : ∀ b ∈ s.blogs, (b._id == blogId) = false)
    (hlen : content.length ≤ MAX_COMMENT_CHARS) :
    postComment s blogId content sess cid now =
      (.ok none,
       { s with comments := s.comments ++
          [{ _id := cid, content := content, author := sess.getD "",
             blog := blogId, datePosted := now }] }) := by
  unfold postComment
  rw [if_neg (by omega)]
  dsimp only
  rw [findOneAndUpdate_of_no_match (fun b => b._id == blogId)
    (fun b => { b with comments := addToSet b.comments cid }) s.blogs hno]
  rfl

/-- C8 witness: posting to the nonexistent blog id "nope" on a store
holding only blog "b1": a 200 response with no count, and the orphan
comment persisted. -/
theorem C8_orphan_comment_witness :
    (∀ b ∈ oneBlogStore.blogs, (b._id == "nope") = false) ∧
    postComment oneBlogStore "nope" "hi" none "c1" 0 =
      (.ok none,
       { oneBlogStore with comments := oneBlogStore.comments ++
          [{ _id := "c1", content := "hi", author := "", blog := "nope",
             datePosted := 0 }] }) :=
  ⟨by decide,
   C8_orphan_comment_on_missing_blog oneBlogStore "nope" "hi" none "c1" 0
     (by decide) (by decide)⟩

/-! ## Blog creation (C10) -/

/-- C10: blog creation rejects with 400, leaving the store unchanged,
any request missing title, content or description, any title longer
than 100 units, and any description longer than 500 units; a request
with all three fields provided (non-empty — the handler's falsiness
check treats the empty string as missing) and within bounds results in
exactly one inserted blog document. -/
theorem C10_add_blog_validation :
    (∀ (s : Store) (req : AddBlogRequest) (sess : Option String)
        (nid : String) (now : Nat),
      req.title = none ∨ req.content = none ∨ req.description = none →
      (addBlog s req sess nid now).1.statusCode = 400 ∧
      (addBlog s req sess nid now).2 = s) ∧
    (∀ (s : Store) (req : AddBlogRequest) (sess : Option String)
        (nid : String) (now : Nat),
      (req.title.getD "").length > 100 →
      (addBlog s req sess nid now).1.statusCode = 400 ∧
      (addBlog s req sess nid now).2 = s) ∧
    (∀ (s : Store) (req : AddBlogRequest) (sess : Option String)
        (nid : String) (now : Nat),
      (req.description.getD "").length > 500 →
      (addBlog s req sess nid now).1.statusCode = 400 ∧
      (addBlog s req sess nid now).2 = s) ∧
    (∀ (s : Store) (req : AddBlogRequest) (sess : Option String)
        (nid : String) (now : Nat) (t c d : String),
      req.title = some t → t ≠ "" → req.content = some c → c ≠ "" →
      req.description = some d → d ≠ "" →
      t.length ≤ 100 → d.length ≤ 500 →
      addBlog s req sess nid now =
        (.created,
         { s with blogs := s.blogs ++
            [{ _id := nid, title := t, content := c, description := d,
               image := req.image.getD "", datePublished := now,
               author := sess.getD "", likes := [],
               comments := [] }] })) := by
  refine ⟨?_, ?_, ?_, ?_⟩
  · intro s req sess nid now h
    have hcond : (strFalsy req.title || strFalsy req.content ||
        strFalsy req.description) = true := by
      rcases h with h | h | h <;> simp [h, strFalsy]
    unfold addBlog
    rw [if_pos hcond]
    exact ⟨rfl, rfl⟩
  · intro s req sess nid now h
    unfold addBlog
    by_cases hf : (strFalsy req.title || strFalsy req.content ||
        strFalsy req.description) = true
    · rw [if_pos hf]; exact ⟨rfl, rfl⟩
    · rw [if_neg hf, if_pos h]; exact ⟨rfl, rfl⟩
  · intro s req sess nid now h
    unfold addBlog
    by_cases hf : (strFalsy req.title || strFalsy req.content ||
        strFalsy req.description) = true
    · rw [if_pos hf]; exact ⟨rfl, rfl⟩
    · by_cases ht : (req.title.getD "").length > 100
      · rw [if_neg hf, if_pos ht]; exact ⟨rfl, rfl⟩
      · rw [if_neg hf, if_neg ht, if_pos h]; exact ⟨rfl, rfl⟩
  · intro s req sess nid now t c d ht hne_t hc hne_c hd hne_d hlt hld
    unfold addBlog
    rw [ht, hc, hd]
    have h1 : strFalsy (some t) = false := by simp [strFalsy, hne_t]
    have h2 : strFalsy (some c) = false := by simp [strFalsy, hne_c]
    have h3 : strFalsy (some d) = false := by simp [strFalsy, hne_d]
    rw [if_neg (by simp [h1, h2, h3])]
    simp only [Option.getD_some]
    rw [if_neg (by omega), if_neg (by omega)]

/-- A valid blog-creation request. -/
def goodAddReq : AddBlogRequest :=
  { title := some "T", content := some "C", description := some "D",
    image := none }

/-- A title one unit over the 100-unit bound. -/
def longTitle : String := String.mk (List.replicate 101 'a')

/-- A description one unit over the 500-unit bound. -/
def longDesc : String := String.mk (List.replicate 501 'a')

set_option maxRecDepth 10000 in
/-- C10 witness: a request missing its title is rejected; an
overlong title is rejected; an overlong description is rejected; the
valid request inserts exactly one blog into the empty store. -/
theorem C10_add_blog_validation_witness :
    ((addBlog emptyStore { goodAddReq with title := none } none "b9" 0).1.statusCode
        = 400 ∧
      (addBlog emptyStore { goodAddReq with title := none } none "b9" 0).2
        = emptyStore) ∧
    ((addBlog emptyStore { goodAddReq with title := some longTitle } none
        "b9" 0).1.statusCode = 400 ∧
      (addBlog emptyStore { goodAddReq with title := some longTitle } none
        "b9" 0).2 = emptyStore) ∧
    ((addBlog emptyStore { goodAddReq with description := some longDesc }
        none "b9" 0).1.statusCode = 400 ∧
      (addBlog emptyStore { goodAddReq with description := some longDesc }
        none "b9" 0).2 = emptyStore) ∧
    addBlog emptyStore goodAddReq none "b9" 0 =
      (.created,
       { emptyStore with blogs := emptyStore.blogs ++
          [{ _id := "b9", title := "T", content := "C",
             description := "D", image := "", datePublished := 0,
             author := "", likes := [], comments := [] }] }) :=
  ⟨C10_add_blog_validation.1 emptyStore { goodAddReq with title := none }
      none "b9" 0 (Or.inl rfl),
   C10_add_blog_validation.2.1 emptyStore
      { goodAddReq with title := some longTitle } none "b9" 0 (by decide),
   C10_add_blog_validation.2.2.1 emptyStore
      { goodAddReq with description := some longDesc } none "b9" 0
      (by decide),
   C10_add_blog_validation.2.2.2 emptyStore goodAddReq none "b9" 0
      "T" "C" "D" rfl (by decide) rfl (by decide) rfl (by decide)
      (by decide) (by decide)⟩

end PogBlog
